import Mathlib

/-!
Verification of the bifrost bridge: a shallow embedding of the PUT
resource handler (src/routes/clip.rs), the response envelope, and the
runtime supervisor / startup sequence (src/main.rs), with theorems
settling the specification claims.

Types from the crate that are not among the visible sources
(the resource model, `DeviceUpdate`, `AppState` helpers) are modelled
from the spec; each such definition carries a doc comment saying so.
-/

namespace Bifrost

/-- Resource identifiers (`uuid::Uuid` in the source) are modelled as
natural numbers; only equality of ids is ever used. -/
abbrev Uuid := Nat

/-- Modelled from the spec: the closed set of resource type tags
(`hue::v2::ResourceType`); the variants the handler dispatches on,
plus the extra bootstrap variants named in the spec. -/
inductive ResourceType where
  | bridgeHome
  | device
  | groupedLight
  | light
  | room
  | scene
deriving DecidableEq, Repr

/-- Modelled from the spec: `ResourceLink` is a (type, id) pair used as a
foreign reference; `rid` is the field name the handler reads. -/
structure ResourceLink where
  rid : Uuid
  rtype : ResourceType
deriving DecidableEq, Repr

/-- A chromaticity pair, passed through unchanged by the translator. -/
structure XY where
  x : ℚ
  y : ℚ
deriving DecidableEq, Repr

/-- Modelled from the spec: the `Resource` tagged union
(`hue::v2::Resource`), carrying exactly the fields the visible handler
reads: a Light's display name, a GroupedLight's owner link, a Room's
display name. -/
inductive Resource where
  | light (name : String)
  | groupedLight (owner : ResourceLink)
  | scene
  | room (name : String)
  | device
  | bridgeHome
deriving DecidableEq, Repr

/-- The type tag of a stored resource variant. -/
def Resource.rtype : Resource → ResourceType
  | .light _ => .light
  | .groupedLight _ => .groupedLight
  | .scene => .scene
  | .room _ => .room
  | .device => .device
  | .bridgeHome => .bridgeHome

/-- Modelled from the spec: `AuxData`, the side table keyed by resource
id holding the broker topic and the broker-local scene index. -/
structure AuxData where
  topic : Option String := none
  index : Option Nat := none
deriving DecidableEq, Repr

/-- Modelled from the spec: the Resource Store — the resource map plus
the AuxData side table (the `res` field of `AppState`, guarded by one
exclusive lock). -/
structure Store where
  resources : List (Uuid × Resource)
  aux : List (Uuid × AuxData)
deriving DecidableEq, Repr

/-- Look a resource up by id alone. -/
def Store.lookupRes (s : Store) (id : Uuid) : Option Resource :=
  s.resources.lookup id

/-- Look an AuxData entry up by id (`lock.aux.get` in the handler). -/
def Store.lookupAux (s : Store) (id : Uuid) : Option AuxData :=
  s.aux.lookup id

/-- Modelled from the spec: the error taxonomy surfaced by the handler;
only the not-found constructor is matched on, the rest carry a message. -/
inductive ApiError where
  | notFound (id : Uuid)
  | parseError (msg : String)
  | certificate (msg : String)
  | other (msg : String)
deriving DecidableEq, Repr

/-- Modelled from the spec: the structured error message placed in the
response envelope (the Display rendering of `ApiError`). -/
def ApiError.message : ApiError → String
  | .notFound id => "Not found: " ++ toString id
  | .parseError m => "Parse error: " ++ m
  | .certificate m => "Certificate error: " ++ m
  | .other m => m

/-- Modelled from the spec: `AppState::get_resource` — look up by type
tag and id under the store lock, failing Not-Found if the id is absent
or the stored variant does not match the requested type. -/
def getResource (s : Store) (rtype : ResourceType) (id : Uuid) :
    Except ApiError Resource :=
  match s.lookupRes id with
  | none => .error (.notFound id)
  | some r => if r.rtype = rtype then .ok r else .error (.notFound id)

/-- Modelled from the spec: `AppState::get_link` — dereference a
`ResourceLink` as a lookup by its (type, id) pair. -/
def getLink (s : Store) (l : ResourceLink) : Except ApiError Resource :=
  getResource s l.rtype l.rid

/-- Modelled from the spec: the `on` sub-object of an API update. -/
structure OnUpdate where
  «on» : Bool
deriving DecidableEq, Repr

/-- Modelled from the spec: the `dimming` sub-object — a brightness
percentage (a 64-bit float in the source; every arithmetic step the
handler performs on it is exact in binary floating point for the
inputs of interest, so it is embedded as a rational). -/
structure Dimming where
  brightness : ℚ
deriving DecidableEq, Repr

/-- Modelled from the spec: the color-temperature sub-object, in mirek. -/
structure ColorTemperatureUpdate where
  mirek : Nat
deriving DecidableEq, Repr

/-- Modelled from the spec: the color sub-object, an xy chromaticity. -/
structure ColorUpdate where
  xy : XY
deriving DecidableEq, Repr

/-- Modelled from the spec: `GroupedLightUpdate` — the partial update
the handler deserializes for Light and GroupedLight resources; every
field is optional. -/
structure GroupedLightUpdate where
  «on» : Option OnUpdate := none
  dimming : Option Dimming := none
  color_temperature : Option ColorTemperatureUpdate := none
  color : Option ColorUpdate := none
deriving DecidableEq, Repr

/-- Modelled from the spec: `SceneRecallAction` — only `Active` triggers
broker traffic. -/
inductive SceneRecallAction where
  | active
  | dynamicPalette
  | staticAction
deriving DecidableEq, Repr

/-- Modelled from the spec: the `recall` sub-object of a scene update;
the handler matches only on its optional `action` field (its remaining
fields are ignored by the match). -/
structure SceneRecall where
  action : Option SceneRecallAction := none
deriving DecidableEq, Repr

/-- Modelled from the spec: `SceneUpdate` — a scene PUT body; only the
optional `recall` member is consulted. -/
structure SceneUpdate where
  «recall» : Option SceneRecall := none
deriving DecidableEq, Repr

/-- Modelled from the spec: `z2m::update::DeviceUpdate` — the broker
device payload with all fields optional; a field left `none` is omitted
from the serialized payload. -/
structure DeviceUpdate where
  state : Option Bool := none
  brightness : Option ℚ := none
  color_temp : Option Nat := none
  color : Option XY := none
deriving DecidableEq, Repr

/-- `DeviceUpdate::default()`: every field absent. -/
def DeviceUpdate.mkDefault : DeviceUpdate := {}

/-- Builder: set or clear the `state` field. -/
def DeviceUpdate.with_state (d : DeviceUpdate) (v : Option Bool) :
    DeviceUpdate := { d with state := v }

/-- Builder: set or clear the `brightness` field. -/
def DeviceUpdate.with_brightness (d : DeviceUpdate) (v : Option ℚ) :
    DeviceUpdate := { d with brightness := v }

/-- Builder: set or clear the `color_temp` field. -/
def DeviceUpdate.with_color_temp (d : DeviceUpdate) (v : Option Nat) :
    DeviceUpdate := { d with color_temp := v }

/-- Builder: set or clear the `color` field. -/
def DeviceUpdate.with_color_xy (d : DeviceUpdate) (v : Option XY) :
    DeviceUpdate := { d with color := v }

/-- An outbound broker payload: either a device attribute update or a
scene-recall command (the source builds the latter as a JSON object
whose single key is scene_recall, carrying the AuxData index). -/
inductive Payload where
  | device (upd : DeviceUpdate)
  | sceneRecall (index : Option Nat)
deriving DecidableEq, Repr

/-- An outbound broker command: the target (device/group name or broker
topic) handed to `send_set`, with its payload. -/
structure Command where
  target : String
  payload : Payload
deriving DecidableEq, Repr

/-- Execution events recorded by the embedding, used to state the
locking discipline: store-lock acquisition and release, and an awaited
outbound publish (`send_set`). -/
inductive Event where
  | lockAcquire
  | lockRelease
  | ioSend (target : String) (payload : Payload)
deriving DecidableEq, Repr

/-- A PUT request body, as the typed values the handler's two
`serde_json::from_value` calls can produce: a grouped-light shaped
update, a scene shaped update, or a body neither deserialization
accepts. -/
inductive PutBody where
  | grouped (upd : GroupedLightUpdate)
  | scene (upd : SceneUpdate)
  | malformed
deriving DecidableEq, Repr

/-- `serde_json::from_value::<GroupedLightUpdate>` on the request body
(on a scene-shaped body the unknown member is ignored and every
optional field comes back absent). -/
def parseGrouped : PutBody → Except ApiError GroupedLightUpdate
  | .grouped u => .ok u
  | .scene _ => .ok {}
  | .malformed => .error (.parseError "invalid body")

/-- `serde_json::from_value::<SceneUpdate>` on the request body (a
grouped-light shaped body has no recall member, so it parses with
`recall` absent). -/
def parseScene : PutBody → Except ApiError SceneUpdate
  | .grouped _ => .ok {}
  | .scene u => .ok u
  | .malformed => .error (.parseError "invalid body")

/-- The full outcome of one handler run: the result (a reply on
success, an `ApiError` otherwise), the outbound broker commands
emitted, the event trace, and the store after the run. -/
structure PutOutcome where
  result : Except ApiError (List Resource × List String)
  commands : List Command
  events : List Event
  store : Store
deriving Repr

/-- Update translation, exactly as written inline in the Light and
GroupedLight arms of `put_resource_id`: the builder chain over
`DeviceUpdate::default()`, with brightness mapped by
brightness / 100.0 * 255.0. -/
def translate (upd : GroupedLightUpdate) : DeviceUpdate :=
  ((((DeviceUpdate.mkDefault).with_state
      (upd.«on».map OnUpdate.«on»)).with_brightness
      (upd.dimming.map fun dim => dim.brightness / 100 * 255)).with_color_temp
      (upd.color_temperature.map ColorTemperatureUpdate.mirek)).with_color_xy
      (upd.color.map ColorUpdate.xy)

/-- The event trace of a store read made through `AppState` (modelled
from the spec: acquire the lock, read, release). -/
def readEvents : List Event := [.lockAcquire, .lockRelease]

/-- The tail of every handler run: `V2Reply::ok(state.get_resource(rtype, id))`
— re-read the (unchanged) store and wrap the resource in a success
envelope, or propagate the read failure. -/
def replyFromStore (s : Store) (rtype : ResourceType) (id : Uuid)
    (commands : List Command) (events : List Event) : PutOutcome :=
  match getResource s rtype id with
  | .error e => ⟨.error e, commands, events ++ readEvents, s⟩
  | .ok r => ⟨.ok ([r], []), commands, events ++ readEvents, s⟩

/-- The PUT handler `put_resource_id` of src/routes/clip.rs, embedded
with explicit store passing, an outbound-command list, and an event
trace. -/
def putResourceId (s : Store) (rtype : ResourceType) (id : Uuid)
    (body : PutBody) : PutOutcome :=
  match getResource s rtype id with
  | .error e => ⟨.error e, [], readEvents, s⟩
  | .ok res =>
    match res with
    | .light name =>
      match parseGrouped body with
      | .error e => ⟨.error e, [], readEvents, s⟩
      | .ok upd =>
        replyFromStore s rtype id [⟨name, .device (translate upd)⟩]
          (readEvents ++ [.ioSend name (.device (translate upd))])
    | .groupedLight owner =>
      match getLink s owner with
      | .error e => ⟨.error e, [], readEvents ++ readEvents, s⟩
      | .ok (.room rname) =>
        match parseGrouped body with
        | .error e => ⟨.error e, [], readEvents ++ readEvents, s⟩
        | .ok upd =>
          replyFromStore s rtype id [⟨rname, .device (translate upd)⟩]
            (readEvents ++ readEvents ++ [.ioSend rname (.device (translate upd))])
      | .ok _ =>
        ⟨.error (.notFound owner.rid), [], readEvents ++ readEvents, s⟩
    | .scene =>
      match parseScene body with
      | .error e => ⟨.error e, [], readEvents, s⟩
      | .ok upd =>
        match upd.«recall» with
        | some ⟨some .active⟩ =>
          match s.lookupAux id with
          | none =>
            ⟨.error (.notFound id), [],
              readEvents ++ [.lockAcquire, .lockRelease], s⟩
          | some aux =>
            match aux.topic with
            | none =>
              ⟨.error (.notFound id), [],
                readEvents ++ [.lockAcquire, .lockRelease], s⟩
            | some topic =>
              replyFromStore s rtype id [⟨topic, .sceneRecall aux.index⟩]
                (readEvents ++
                  [.lockAcquire, .ioSend topic (.sceneRecall aux.index),
                    .lockRelease])
        | some _ => replyFromStore s rtype id [] readEvents
        | none => replyFromStore s rtype id [] readEvents
    | _ => replyFromStore s rtype id [] readEvents

/-- The result `JoinSet::join_next` hands the supervisor for one
completed task, as matched in `run` (src/main.rs): the task finished
with `Ok`, the task finished with an application-level error, or the
task could not be scheduled (a join/spawn error). -/
inductive JoinOutcome where
  | joinOk
  | taskError
  | spawnFailure
deriving DecidableEq, Repr

/-- Log severities used by the supervisor loop. -/
inductive LogLevel where
  | info
  | error
deriving DecidableEq, Repr

/-- The classification `run` applies to one completed task: `Ok` is
logged informationally, a task error and a spawn failure are logged as
errors; every completion lands in exactly one arm of the match. -/
def classify : JoinOutcome → LogLevel × String
  | .joinOk => (.info, "Worker returned")
  | .taskError => (.error, "Worked task failed")
  | .spawnFailure => (.error, "Error spawning from worker")

/-- The supervisor's visible state: the tasks not yet completed (the
contents of the `JoinSet`), and the log written so far. -/
structure SupState where
  pending : List JoinOutcome
  log : List (JoinOutcome × LogLevel × String)
deriving DecidableEq, Repr

/-- One iteration of the `loop` in `run`: `join_next` on an empty set
returns `None` and the loop breaks (modelled as `none`); otherwise the
next completion is classified and logged, and the loop continues with
the remaining tasks — nothing is ever re-spawned or restarted. -/
def superviseStep (st : SupState) : Option SupState :=
  match st.pending with
  | [] => none
  | t :: rest => some ⟨rest, st.log ++ [(t, classify t)]⟩

/-- Running the supervisor loop to termination from a list of task
completions: the log it has produced when `join_next` returns `None`. -/
def superviseAll : List JoinOutcome → List (JoinOutcome × LogLevel × String)
  | [] => []
  | t :: rest => (t, classify t) :: superviseAll rest

/-- The fallible steps of startup, each an abstract outcome: parsing
config.yaml, constructing `AppState`, reading an existing state file or
initializing a fresh store, loading the TLS certificate, and
constructing each broker client. The task completions are the outcomes
the spawned tasks eventually produce. -/
structure StartupInput where
  configParse : Except ApiError Unit
  appStateNew : Except ApiError Unit
  stateFileExists : Bool
  stateRead : Except ApiError Unit
  stateInit : Except ApiError Unit
  certLoad : Except ApiError Unit
  clientNew : List (Except ApiError Unit)
  taskResults : List JoinOutcome
deriving Repr

/-- `load_state` (src/main.rs): parse the configuration, build the app
state, read the state file if it exists (otherwise initialize the
store), then load the TLS certificate — every step propagates its
error with the question-mark operator. -/
def loadState (i : StartupInput) : Except ApiError Unit := do
  i.configParse
  i.appStateNew
  if i.stateFileExists then i.stateRead else i.stateInit
  i.certLoad

/-- `build_tasks` (src/main.rs): construct one broker client per
configured server, propagating the first construction error; spawning
itself is infallible. -/
def buildTasks (i : StartupInput) : Except ApiError Unit :=
  i.clientNew.foldl (fun acc c => do acc; c) (.ok ())

/-- `run` (src/main.rs): `load_state`, then `build_tasks`, then the
supervisor loop, which always breaks with `Ok` once every task has
completed, whatever the individual task results were. -/
def runBifrost (i : StartupInput) : Except ApiError Unit := do
  loadState i
  buildTasks i
  let _log := superviseAll i.taskResults
  return ()

/-- `main` (src/main.rs): the process ends fatally exactly when `run`
returns an error (the error is logged and `main` returns). -/
def processAborts (i : StartupInput) : Bool :=
  !(runBifrost i).isOk

/-- The response envelope `V2Reply`: a data list and an error-message
list. -/
structure V2Reply (α : Type) where
  data : List α
  errors : List String
deriving DecidableEq, Repr

/-- `V2Reply::ok`: wrap one object in a success envelope with an empty
error list. -/
def V2Reply.okReply {α : Type} (obj : α) : V2Reply α :=
  ⟨[obj], []⟩

/-- `V2Reply::list`: wrap a result list in a success envelope with an
empty error list. -/
def V2Reply.listReply {α : Type} (l : List α) : V2Reply α :=
  ⟨l, []⟩

/-- An HTTP response: a status code with the envelope body. -/
structure HttpResponse (α : Type) where
  status : Nat
  body : V2Reply α
deriving DecidableEq, Repr

/-- `IntoResponse for ApiError`: log the error, then answer status 500
with an envelope holding no data and the single rendered message. The
log entry produced is returned alongside the response. -/
def errorIntoResponse (e : ApiError) :
    HttpResponse Resource × (LogLevel × String) :=
  (⟨500, ⟨[], [e.message]⟩⟩, (.error, "Request failed: " ++ e.message))

/-- The full HTTP response of a handler run: a success result becomes
status 200 with its envelope, an error goes through
`IntoResponse for ApiError`. -/
def toResponse (r : Except ApiError (List Resource × List String)) :
    HttpResponse Resource :=
  match r with
  | .ok (data, errs) => ⟨200, ⟨data, errs⟩⟩
  | .error e => (errorIntoResponse e).1

/-- Lock-tracking scan of an event trace: `true` when some awaited
outbound publish happens while the store lock is held (the depth
counter counts acquisitions not yet released). -/
def lockHeldAcrossIO : List Event → Nat → Bool
  | [], _ => false
  | .lockAcquire :: es, d => lockHeldAcrossIO es (d + 1)
  | .lockRelease :: es, d => lockHeldAcrossIO es (d - 1)
  | .ioSend _ _ :: es, d => decide (0 < d) || lockHeldAcrossIO es d

/-- Modelled from the spec: the broker wire value of a brightness — the
0–255 linear-scale value rounded to the nearest integer (the spec fixes
only that 50 percent maps to 127 or 128 and leaves the rounding rule to
the implementation; the serializer is not among the visible sources). -/
def brokerBrightness (q : ℚ) : ℤ := round q

/-- Fixture: a store holding one Light named lamp under id 1. -/
def lampStore : Store := ⟨[(1, .light "lamp")], []⟩

/-- Fixture: a GroupedLight (id 2) whose owner link resolves to the
Room kitchen (id 3). -/
def groupStore : Store :=
  ⟨[(2, .groupedLight ⟨3, .room⟩), (3, .room "kitchen")], []⟩

/-- Fixture: a GroupedLight (id 2) whose owner link dangles (id 9 is
absent from the store). -/
def danglingStore : Store := ⟨[(2, .groupedLight ⟨9, .room⟩)], []⟩

/-- Fixture: a Scene (id 4) whose AuxData carries the broker topic and
scene index of the spec's recall example. -/
def sceneStore : Store :=
  ⟨[(4, .scene)], [(4, ⟨some "zigbee2mqtt/scene1", some 3⟩)]⟩

/-- Fixture: a store holding one Room (id 3). -/
def roomStore : Store := ⟨[(3, .room "kitchen")], []⟩

/-- A grouped-light update carrying only a 50 percent brightness. -/
def dim50 : GroupedLightUpdate := { dimming := some ⟨50⟩ }

/-- A scene update recalling with the Active action. -/
def recallActive : SceneUpdate := ⟨some ⟨some .active⟩⟩

lemma getResource_error_eq {s : Store} {t : ResourceType} {id : Uuid}
    {e : ApiError} (h : getResource s t id = .error e) :
    e = .notFound id := by
  unfold getResource at h
  split at h
  · exact (Except.error.inj h).symm
  · split at h
    · simp at h
    · exact (Except.error.inj h).symm

lemma replyFromStore_store (s : Store) (t : ResourceType) (id : Uuid)
    (c : List Command) (ev : List Event) :
    (replyFromStore s t id c ev).store = s := by
  unfold replyFromStore
  split <;> rfl

lemma replyFromStore_commands (s : Store) (t : ResourceType) (id : Uuid)
    (c : List Command) (ev : List Event) :
    (replyFromStore s t id c ev).commands = c := by
  unfold replyFromStore
  split <;> rfl

lemma replyFromStore_result {s : Store} {t : ResourceType} {id : Uuid}
    {r : Resource} (c : List Command) (ev : List Event)
    (h : getResource s t id = .ok r) :
    (replyFromStore s t id c ev).result = .ok ([r], []) := by
  unfold replyFromStore
  rw [h]

lemma putResourceId_store (s : Store) (rtype : ResourceType) (id : Uuid)
    (body : PutBody) : (putResourceId s rtype id body).store = s := by
  unfold putResourceId
  repeat' split
  all_goals first | rfl | exact replyFromStore_store ..

/-- C2: the supervisor loop classifies every task completion into
exactly one of the three outcomes — a success is logged
informationally, an application-level task error and a spawn failure
are logged as errors — each step consumes exactly one completion and
keeps the remaining tasks pending (nothing is ever restarted), the
loop breaks only when the task set is exhausted, and a full run logs
every spawned task exactly once. -/
theorem supervisor_classifies_all_completions (st : SupState) :
    (superviseStep st = none ↔ st.pending = []) ∧
    (∀ t rest, st.pending = t :: rest →
      superviseStep st = some ⟨rest, st.log ++ [(t, classify t)]⟩) ∧
    (∀ l : List JoinOutcome,
      superviseAll l = l.map fun t => (t, classify t)) ∧
    (classify .joinOk).1 = .info ∧
    (classify .taskError).1 = .error ∧
    (classify .spawnFailure).1 = .error := by
  obtain ⟨pending, log⟩ := st
  refine ⟨?_, ?_, ?_, rfl, rfl, rfl⟩
  · cases pending <;> simp [superviseStep]
  · intro t rest h
    cases pending with
    | nil => cases h
    | cons a l =>
      injection h with h1 h2
      subst h1; subst h2; rfl
  · intro l
    induction l with
    | nil => rfl
    | cons t rest ih => simp [superviseAll, ih]

/-- Witness for C2: at the concrete state with a failed task followed
by a successful one, one step logs the failure as an error and leaves
the other task pending. -/
theorem supervisor_classifies_all_completions_witness :
    superviseStep ⟨[.taskError, .joinOk], []⟩ =
      some ⟨[.joinOk], [] ++ [(.taskError, classify .taskError)]⟩ :=
  (supervisor_classifies_all_completions ⟨[.taskError, .joinOk], []⟩).2.1
    .taskError [.joinOk] rfl

/-- The request body for a scene recall with the Active action. -/
def recallBody : PutBody := .scene recallActive

/-- C3 (violation exhibited): on a PUT recalling a scene with the
Active action, the handler acquires the store lock, awaits the
outbound `send_set` publish while still holding it, and releases the
lock only afterwards — the trace shows an I/O wait under the lock, and
the publish in question is the scene-recall command itself. -/
theorem scene_recall_awaits_send_under_lock :
    lockHeldAcrossIO
      (putResourceId sceneStore .scene 4 recallBody).events 0 = true ∧
    (putResourceId sceneStore .scene 4 recallBody).commands =
      [⟨"zigbee2mqtt/scene1", .sceneRecall (some 3)⟩] := by
  constructor <;> rfl

/-- Startup input in which the configuration and the certificate are
both fine but the persisted state file is unreadable. -/
def badStateInput : StartupInput where
  configParse := .ok ()
  appStateNew := .ok ()
  stateFileExists := true
  stateRead := .error (.other "corrupt state file")
  stateInit := .ok ()
  certLoad := .ok ()
  clientNew := []
  taskResults := []

/-- C9 counterexample: with the configuration parsed and the TLS
certificate loadable, a failure to read the persisted state file still
aborts the whole process — `load_state` propagates it with the
question-mark operator — contradicting the claim that only the two
named failures are process-fatal. -/
theorem state_read_failure_aborts :
    badStateInput.configParse = .ok () ∧
    badStateInput.certLoad = .ok () ∧
    processAborts badStateInput = true := ⟨rfl, rfl, rfl⟩

/-- C9 as amended: the process aborts exactly when some step of
`load_state` (configuration parse, app-state construction, state-file
read when a state file exists, store initialization otherwise, TLS
certificate load) or some broker-client construction in `build_tasks`
fails; once the tasks are spawned, their completions never make the
process abort — the supervisor loop always ends with `Ok`. -/
lemma runBifrost_isOk (i : StartupInput) :
    (runBifrost i).isOk = ((loadState i).isOk && (buildTasks i).isOk) := by
  unfold runBifrost
  rcases h1 : loadState i with e | u
  · rfl
  · rcases h2 : buildTasks i with e2 | u2 <;> rfl

theorem startup_fatality_boundary (i : StartupInput) :
    (processAborts i = true ↔
      ((loadState i).isOk = false ∨ (buildTasks i).isOk = false)) ∧
    ((loadState i).isOk =
      (i.configParse.isOk && i.appStateNew.isOk &&
        (if i.stateFileExists then i.stateRead.isOk else i.stateInit.isOk) &&
        i.certLoad.isOk)) ∧
    (∀ tr : List JoinOutcome,
      processAborts { i with taskResults := tr } = processAborts i) := by
  refine ⟨?_, ?_, fun tr => ?_⟩
  · unfold processAborts
    rw [runBifrost_isOk]
    cases h1 : (loadState i).isOk <;> cases h2 : (buildTasks i).isOk <;> simp
  · obtain ⟨cp, an, sfe, sr, si, cl, cn, tr0⟩ := i
    cases cp <;> cases an <;> cases sfe <;> cases sr <;> cases si <;>
      cases cl <;> rfl
  · obtain ⟨cp, an, sfe, sr, si, cl, cn, tr0⟩ := i
    unfold processAborts runBifrost loadState buildTasks
    rfl

lemma replyFromStore_result_ok_inv {s : Store} {t : ResourceType}
    {id : Uuid} {c : List Command} {ev : List Event}
    {data : List Resource} {errs : List String}
    (h : (replyFromStore s t id c ev).result = .ok (data, errs)) :
    ∃ r, getResource s t id = .ok r ∧ data = [r] ∧ errs = [] := by
  unfold replyFromStore at h
  split at h
  · simp at h
  · rename_i r hr
    simp only [Except.ok.injEq, Prod.mk.injEq] at h
    exact ⟨r, hr, h.1.symm, h.2.symm⟩

lemma putResourceId_result_ok {s : Store} {rtype : ResourceType}
    {id : Uuid} {body : PutBody} {data : List Resource}
    {errs : List String}
    (hok : (putResourceId s rtype id body).result = .ok (data, errs)) :
    errs = [] ∧ ∃ r, getResource s rtype id = .ok r ∧ data = [r] := by
  unfold putResourceId at hok
  repeat' split at hok
  any_goals
    exact
      (fun h => And.intro h.choose_spec.2.2
        ⟨h.choose, h.choose_spec.1, h.choose_spec.2.1⟩)
      (replyFromStore_result_ok_inv hok)
  all_goals simp at hok

/-- C10: a PUT on a resource whose stored variant is neither Light,
GroupedLight nor Scene (Room, Device, BridgeHome) falls through to the
state-update-not-supported arm: it succeeds with an envelope holding
the stored resource, emits no broker command, and leaves the store
untouched. -/
theorem put_other_variant_is_noop (s : Store) (rtype : ResourceType)
    (id : Uuid) (body : PutBody) (r : Resource)
    (hres : getResource s rtype id = .ok r)
    (hl : ∀ n, r ≠ .light n) (hg : ∀ o, r ≠ .groupedLight o)
    (hs : r ≠ .scene) :
    (putResourceId s rtype id body).result = .ok ([r], []) ∧
    (putResourceId s rtype id body).commands = [] ∧
    (putResourceId s rtype id body).store = s := by
  rcases r with n | o | _ | n | _ | _
  · exact absurd rfl (hl n)
  · exact absurd rfl (hg o)
  · exact absurd rfl hs
  all_goals
    refine ⟨?_, ?_, putResourceId_store ..⟩ <;>
      simp only [putResourceId, hres] <;>
      first
        | exact replyFromStore_result _ _ hres
        | exact replyFromStore_commands ..

/-- Witness for C10: a PUT on the stored Room succeeds with the room in
the envelope, sends nothing, and leaves the store as it was. -/
theorem put_other_variant_is_noop_witness :
    (putResourceId roomStore .room 3 .malformed).result =
      .ok ([.room "kitchen"], []) ∧
    (putResourceId roomStore .room 3 .malformed).commands = [] ∧
    (putResourceId roomStore .room 3 .malformed).store = roomStore :=
  put_other_variant_is_noop roomStore .room 3 .malformed (.room "kitchen")
    rfl (fun _ h => Resource.noConfusion h)
    (fun _ h => Resource.noConfusion h) (fun h => Resource.noConfusion h)

/-- C6: a PUT on a GroupedLight whose owner link does not resolve to a
stored Room — the id is absent, the type tag mismatches, or the stored
variant is not a Room — fails with a not-found error naming the owner
id, emitting nothing; the handler returns the error instead of
panicking. -/
theorem grouped_light_dangling_owner_not_found (s : Store)
    (rtype : ResourceType) (id : Uuid) (body : PutBody)
    (owner : ResourceLink)
    (hres : getResource s rtype id = .ok (.groupedLight owner))
    (hlink : ∀ n, getLink s owner ≠ .ok (.room n)) :
    (putResourceId s rtype id body).result =
      .error (.notFound owner.rid) ∧
    (putResourceId s rtype id body).commands = [] := by
  rcases hg : getLink s owner with e | r'
  · have he : e = .notFound owner.rid := by
      rw [getLink] at hg
      exact getResource_error_eq hg
    subst he
    simp [putResourceId, hres, hg]
  · rcases r' with n | o | _ | n | _ | _
    case room => exact absurd hg (hlink n)
    all_goals simp [putResourceId, hres, hg]

/-- Witness for C6: the fixture GroupedLight whose owner id 9 is absent
from the store yields not-found on owner id 9 and no broker traffic. -/
theorem grouped_light_dangling_owner_not_found_witness :
    (putResourceId danglingStore .groupedLight 2 (.grouped {})).result =
      .error (.notFound 9) ∧
    (putResourceId danglingStore .groupedLight 2 (.grouped {})).commands =
      [] :=
  grouped_light_dangling_owner_not_found danglingStore .groupedLight 2
    (.grouped {}) ⟨9, .room⟩ rfl
    (fun n h => by simp [getLink, getResource, Store.lookupRes,
      danglingStore, List.lookup] at h)

/-- C7: a PUT dispatch never mutates the Resource Store — the store
after the handler runs is the store it started from — and a successful
response carries exactly the resource read back from that unchanged
store, with no error messages: there is no optimistic update. -/
theorem put_does_not_mutate_store (s : Store) (rtype : ResourceType)
    (id : Uuid) (body : PutBody) :
    (putResourceId s rtype id body).store = s ∧
    (∀ r data errs, getResource s rtype id = .ok r →
      (putResourceId s rtype id body).result = .ok (data, errs) →
      data = [r] ∧ errs = []) := by
  refine ⟨putResourceId_store .., fun r data errs hres hok => ?_⟩
  obtain ⟨he, r2, hr2, hd⟩ := putResourceId_result_ok hok
  rw [hres] at hr2
  cases Except.ok.inj hr2
  exact ⟨hd, he⟩

/-- Witness for C7: a brightness PUT on the stored Light leaves the
store identical and replies with the stored light and no errors. -/
theorem put_does_not_mutate_store_witness :
    (putResourceId lampStore .light 1 (.grouped dim50)).store =
      lampStore ∧
    ([Resource.light "lamp"] = [Resource.light "lamp"] ∧
      ([] : List String) = []) :=
  ⟨(put_does_not_mutate_store lampStore .light 1 (.grouped dim50)).1,
   (put_does_not_mutate_store lampStore .light 1 (.grouped dim50)).2
     (.light "lamp") [.light "lamp"] [] rfl rfl⟩

/-- C8: every response is the uniform V2Reply envelope — a data list
and an error-message list. A success has an empty errors list and the
results in data; an `ApiError` is rendered as one structured message in
the errors list with an empty data list, is logged at error level, and
the handler returns it as a value (it never crashes). -/
theorem uniform_reply_envelope (e0 : ApiError) (s : Store)
    (rtype : ResourceType) (id : Uuid) (body : PutBody) :
    (errorIntoResponse e0).1 = ⟨500, ⟨[], [e0.message]⟩⟩ ∧
    (errorIntoResponse e0).2 = (.error, "Request failed: " ++ e0.message) ∧
    (∀ obj : Resource, V2Reply.okReply obj = ⟨[obj], []⟩) ∧
    (∀ l : List Resource, (V2Reply.listReply l).errors = []) ∧
    (∀ data errs,
      (putResourceId s rtype id body).result = .ok (data, errs) →
      errs = [] ∧
      toResponse (putResourceId s rtype id body).result =
        ⟨200, ⟨data, []⟩⟩) ∧
    (∀ e, (putResourceId s rtype id body).result = .error e →
      toResponse (putResourceId s rtype id body).result =
        ⟨500, ⟨[], [e.message]⟩⟩) := by
  refine ⟨rfl, rfl, fun _ => rfl, fun _ => rfl,
    fun data errs hok => ?_, fun e he => ?_⟩
  · have h := putResourceId_result_ok hok
    refine ⟨h.1, ?_⟩
    rw [hok, h.1]
    rfl
  · rw [he]
    rfl

/-- Witness for C8: the concrete Light PUT answers 200 with data and no
errors; the malformed body answers 500 with no data and one message. -/
theorem uniform_reply_envelope_witness :
    toResponse (putResourceId lampStore .light 1 (.grouped dim50)).result =
      ⟨200, ⟨[.light "lamp"], []⟩⟩ ∧
    toResponse (putResourceId lampStore .light 1 .malformed).result =
      ⟨500, ⟨[], [(ApiError.parseError "invalid body").message]⟩⟩ :=
  ⟨((uniform_reply_envelope (.other "") lampStore .light 1
      (.grouped dim50)).2.2.2.2.1 [.light "lamp"] [] rfl).2,
   (uniform_reply_envelope (.other "") lampStore .light 1
      .malformed).2.2.2.2.2 (.parseError "invalid body") rfl⟩

lemma putResourceId_light_commands {s : Store} {rtype : ResourceType}
    {id : Uuid} {body : PutBody} {name : String}
    {upd : GroupedLightUpdate}
    (hres : getResource s rtype id = .ok (.light name))
    (hbody : parseGrouped body = .ok upd) :
    (putResourceId s rtype id body).commands =
      [⟨name, .device (translate upd)⟩] := by
  simp only [putResourceId, hres, hbody]
  exact replyFromStore_commands ..

lemma putResourceId_grouped_commands {s : Store} {rtype : ResourceType}
    {id : Uuid} {body : PutBody} {owner : ResourceLink} {rname : String}
    {upd : GroupedLightUpdate}
    (hres : getResource s rtype id = .ok (.groupedLight owner))
    (hlink : getLink s owner = .ok (.room rname))
    (hbody : parseGrouped body = .ok upd) :
    (putResourceId s rtype id body).commands =
      [⟨rname, .device (translate upd)⟩] := by
  simp only [putResourceId, hres, hlink, hbody]
  exact replyFromStore_commands ..

/-- C5: the translated payload reproduces exactly the optionality of
the update — each device field is absent precisely when the
corresponding update field was unset, the all-unset update yields the
all-absent payload — and for both Light and GroupedLight the handler
sends precisely that translated payload, injecting nothing. -/
theorem unset_fields_omitted (upd : GroupedLightUpdate) (s : Store)
    (rtype : ResourceType) (id : Uuid) (body : PutBody)
    (hbody : parseGrouped body = .ok upd) :
    ((translate upd).state = none ↔ upd.«on» = none) ∧
    ((translate upd).brightness = none ↔ upd.dimming = none) ∧
    ((translate upd).color_temp = none ↔ upd.color_temperature = none) ∧
    ((translate upd).color = none ↔ upd.color = none) ∧
    (upd = {} → translate upd = DeviceUpdate.mkDefault) ∧
    (∀ name, getResource s rtype id = .ok (.light name) →
      (putResourceId s rtype id body).commands =
        [⟨name, .device (translate upd)⟩]) ∧
    (∀ owner rname, getResource s rtype id = .ok (.groupedLight owner) →
      getLink s owner = .ok (.room rname) →
      (putResourceId s rtype id body).commands =
        [⟨rname, .device (translate upd)⟩]) := by
  refine ⟨?_, ?_, ?_, ?_, fun h => by subst h; rfl,
    fun name hres => putResourceId_light_commands hres hbody,
    fun owner rname hres hlink =>
      putResourceId_grouped_commands hres hlink hbody⟩ <;>
    simp [translate, DeviceUpdate.with_state, DeviceUpdate.with_brightness,
      DeviceUpdate.with_color_temp, DeviceUpdate.with_color_xy,
      DeviceUpdate.mkDefault, Option.map_eq_none']

/-- Witness for C5: the empty update translates to the empty payload,
and the concrete GroupedLight PUT with no fields set sends exactly that
empty payload to the owning room. -/
theorem unset_fields_omitted_witness :
    translate {} = DeviceUpdate.mkDefault ∧
    (putResourceId groupStore .groupedLight 2 (.grouped {})).commands =
      [⟨"kitchen", .device (translate {})⟩] :=
  ⟨(unset_fields_omitted {} groupStore .groupedLight 2 (.grouped {})
      rfl).2.2.2.2.1 rfl,
   (unset_fields_omitted {} groupStore .groupedLight 2 (.grouped {})
      rfl).2.2.2.2.2.2 ⟨3, .room⟩ "kitchen" rfl rfl⟩

/-- C4: a brightness percentage b is mapped by the translator to
b / 100 * 255 on the broker's 0–255 linear scale, the handler sends
exactly that payload for both Light and GroupedLight, and at b = 50 the
broker wire value is 128 — one of the two values the spec admits. -/
theorem brightness_maps_to_255_scale (s : Store) (rtype : ResourceType)
    (id : Uuid) (body : PutBody) (upd : GroupedLightUpdate) (b : ℚ)
    (hbody : parseGrouped body = .ok upd)
    (hdim : upd.dimming = some ⟨b⟩) :
    (translate upd).brightness = some (b / 100 * 255) ∧
    (∀ name, getResource s rtype id = .ok (.light name) →
      (putResourceId s rtype id body).commands =
        [⟨name, .device (translate upd)⟩]) ∧
    (∀ owner rname, getResource s rtype id = .ok (.groupedLight owner) →
      getLink s owner = .ok (.room rname) →
      (putResourceId s rtype id body).commands =
        [⟨rname, .device (translate upd)⟩]) ∧
    (b = 50 →
      brokerBrightness (b / 100 * 255) = 128 ∧
      (brokerBrightness (b / 100 * 255) = 127 ∨
        brokerBrightness (b / 100 * 255) = 128)) := by
  refine ⟨?_, fun name hres => putResourceId_light_commands hres hbody,
    fun owner rname hres hlink =>
      putResourceId_grouped_commands hres hlink hbody,
    fun hb => ?_⟩
  · simp [translate, DeviceUpdate.with_state, DeviceUpdate.with_brightness,
      DeviceUpdate.with_color_temp, DeviceUpdate.with_color_xy, hdim]
  · subst hb
    have h128 : brokerBrightness ((50 : ℚ) / 100 * 255) = 128 := by
      unfold brokerBrightness
      norm_num [round_eq]
    exact ⟨h128, Or.inr h128⟩

/-- Witness for C4: brightness 50 translates to 255/2 on the broker
scale, the concrete Light PUT sends it, and the wire value is 128. -/
theorem brightness_maps_to_255_scale_witness :
    (translate dim50).brightness = some ((50 : ℚ) / 100 * 255) ∧
    (putResourceId lampStore .light 1 (.grouped dim50)).commands =
      [⟨"lamp", .device (translate dim50)⟩] ∧
    brokerBrightness ((50 : ℚ) / 100 * 255) = 128 :=
  ⟨(brightness_maps_to_255_scale lampStore .light 1 (.grouped dim50)
      dim50 50 rfl rfl).1,
   (brightness_maps_to_255_scale lampStore .light 1 (.grouped dim50)
      dim50 50 rfl rfl).2.1 "lamp" rfl,
   ((brightness_maps_to_255_scale lampStore .light 1 (.grouped dim50)
      dim50 50 rfl rfl).2.2.2 rfl).1⟩

/-- C1: a PUT on a stored Scene whose update recalls with action Active
and whose AuxData has a topic and an index emits exactly one outbound
command — the scene-recall payload with that index, published to that
topic — and succeeds; a recall whose action is present but not Active,
absent, or missing entirely emits zero commands and still succeeds. -/
theorem scene_recall_active_emits_one_command (s : Store)
    (rtype : ResourceType) (id : Uuid) (body : PutBody)
    (upd : SceneUpdate)
    (hres : getResource s rtype id = .ok .scene)
    (hbody : parseScene body = .ok upd) :
    (∀ aux topic idx, upd.«recall» = some ⟨some .active⟩ →
      s.lookupAux id = some aux → aux.topic = some topic →
      aux.index = some idx →
      (putResourceId s rtype id body).commands =
        [⟨topic, .sceneRecall (some idx)⟩] ∧
      (putResourceId s rtype id body).result = .ok ([.scene], [])) ∧
    ((∀ r, upd.«recall» = some r → r.action ≠ some .active) →
      (putResourceId s rtype id body).commands = [] ∧
      (putResourceId s rtype id body).result = .ok ([.scene], [])) := by
  constructor
  · intro aux topic idx hrec haux htopic hidx
    simp only [putResourceId, hres, hbody, hrec, haux, htopic, hidx]
    exact ⟨replyFromStore_commands .., replyFromStore_result _ _ hres⟩
  · intro hnot
    rcases hrec : upd.«recall» with _ | ⟨_ | a⟩
    · simp only [putResourceId, hres, hbody, hrec]
      exact ⟨replyFromStore_commands .., replyFromStore_result _ _ hres⟩
    · simp only [putResourceId, hres, hbody, hrec]
      exact ⟨replyFromStore_commands .., replyFromStore_result _ _ hres⟩
    · rcases a with _ | _ | _
      · exact absurd rfl (hnot ⟨some .active⟩ hrec)
      all_goals
        simp only [putResourceId, hres, hbody, hrec]
        exact ⟨replyFromStore_commands .., replyFromStore_result _ _ hres⟩

/-- Witness for C1: the Active recall on the fixture scene emits the
single scene-recall command with index 3 to the fixture topic; the
static recall on the same scene emits nothing. -/
theorem scene_recall_active_emits_one_command_witness :
    (putResourceId sceneStore .scene 4 (.scene recallActive)).commands =
      [⟨"zigbee2mqtt/scene1", .sceneRecall (some 3)⟩] ∧
    (putResourceId sceneStore .scene 4
        (.scene ⟨some ⟨some .staticAction⟩⟩)).commands = [] :=
  ⟨((scene_recall_active_emits_one_command sceneStore .scene 4
      (.scene recallActive) recallActive rfl rfl).1
      ⟨some "zigbee2mqtt/scene1", some 3⟩ "zigbee2mqtt/scene1" 3
      rfl rfl rfl rfl).1,
   ((scene_recall_active_emits_one_command sceneStore .scene 4
      (.scene ⟨some ⟨some .staticAction⟩⟩) ⟨some ⟨some .staticAction⟩⟩
      rfl rfl).2
      (fun r hr hc => by
        cases Option.some.inj hr
        exact absurd hc (by decide))).1⟩

end Bifrost
